import Mathlib

/-!
Verification development for the connection-state reconciliation and
session-persistence subsystem of the evolution-api-custom repository.

The TypeScript sources are shallowly embedded: every definition below mirrors
one function of the source (RedisCache, SessionRestorationService,
WAMonitoringService, ConnectionHealthService, GracefulShutdownService,
SendMessageController). Asynchronous code is modelled as sequential state
passing; the Redis client is modelled as an association list from physical
keys to typed values. JavaScript string operations (includes, split, replace)
are re-implemented structurally so that all definitions evaluate inside the
kernel.
-/

/-! ## JavaScript string primitives -/

/-- Whether the character list `p` is an initial segment of `l`
(JS `startsWith` on character lists). -/
def chLeads (p l : List Char) : Bool :=
  match p, l with
  | [], _ => true
  | _ :: _, [] => false
  | a :: as, b :: bs => a == b && chLeads as bs

/-- Whether `p` occurs contiguously anywhere inside `l` (JS `includes`). -/
def chHasSub (p : List Char) : List Char → Bool
  | [] => chLeads p []
  | c :: cs => chLeads p (c :: cs) || chHasSub p cs

/-- JS `hay.includes(sub)`. -/
def jsIncludes (hay sub : String) : Bool :=
  chHasSub sub.data hay.data

/-- JS `hay.startsWith(sub)`. -/
def jsStartsWith (hay sub : String) : Bool :=
  chLeads sub.data hay.data

/-- Remove the first occurrence of `p` from `l` (JS replace with a string
pattern and empty replacement, which JS applies at the first match only). -/
def chDropFirst (p : List Char) : List Char → List Char
  | [] => []
  | c :: cs =>
      if chLeads p (c :: cs) then (c :: cs).drop p.length
      else c :: chDropFirst p cs

/-- JS replace of the first occurrence of pat by the empty string. -/
def jsReplaceFirst (s pat : String) : String :=
  ⟨chDropFirst pat.data s.data⟩

/-- Split a character list at every occurrence of `sep`, keeping empty parts
(JS `split` with a single-character separator). -/
def chSplit (sep : Char) : List Char → List (List Char)
  | [] => [[]]
  | c :: cs =>
      let r := chSplit sep cs
      if c == sep then [] :: r
      else
        match r with
        | [] => [[c]]
        | h :: t => (c :: h) :: t

/-- JS split of a string on the colon character. -/
def jsSplitColon (s : String) : List String :=
  (chSplit ':' s.data).map (fun l => ⟨l⟩)

/-- Concatenate string parts with a separator between them
(JS `parts.join(sep)`). -/
def jsJoin (sep : String) : List String → String
  | [] => ""
  | [p] => p
  | p :: rest => p ++ sep ++ jsJoin sep rest

/-- Parse a nonempty all-digit string into a number; `none` otherwise
(JS `parseInt` restricted to the decimal timestamps the code stores). -/
def chParseNat : List Char → Option Nat
  | [] => none
  | cs => chParseNatAux cs 0
where
  chParseNatAux : List Char → Nat → Option Nat
    | [], acc => some acc
    | c :: cs, acc =>
        if c.isDigit then chParseNatAux cs (acc * 10 + (c.toNat - 48))
        else none

/-- JS `parseInt` on the stored decimal strings. -/
def jsParseNat (s : String) : Option Nat :=
  chParseNat s.data

/-- JS truthiness of an optional string (undefined and the empty string are falsy). -/
def jsTruthyStr : Option String → Bool
  | none => false
  | some s => s != ""

/-- JS `a || dflt` for an optional string. -/
def jsOrStr (o : Option String) (dflt : String) : String :=
  match o with
  | none => dflt
  | some s => if s = "" then dflt else s

/-! ## Association lists (JS objects / Redis keyspaces preserve key order) -/

/-- First value bound to `k`, if any. -/
def assocFind {α : Type} : List (String × α) → String → Option α
  | [], _ => none
  | (k0, v) :: rest, k => if k0 = k then some v else assocFind rest k

/-- Replace the binding of `k` in place, or append a fresh binding. -/
def assocSet {α : Type} : List (String × α) → String → α → List (String × α)
  | [], k, v => [(k, v)]
  | (k0, v0) :: rest, k, v =>
      if k0 = k then (k0, v) :: rest else (k0, v0) :: assocSet rest k v

/-- Remove every binding of `k`. -/
def assocErase {α : Type} (l : List (String × α)) (k : String) : List (String × α) :=
  l.filter (fun e => e.1 ≠ k)

/-- The keys of an association list, in order. -/
def assocKeys {α : Type} (l : List (String × α)) : List String :=
  l.map Prod.fst

/-- Keep the first occurrence of every string (JS `[...new Set(keys)]`). -/
def dedupFirst (seen : List String) : List String → List String
  | [] => []
  | k :: rest =>
      if k ∈ seen then dedupFirst seen rest
      else k :: dedupFirst (k :: seen) rest

/-! ## Data model

`InstanceDto` is the restoration payload built in
session-restoration.service.ts; optional fields model the optional /
undefined TypeScript fields. -/

structure InstanceDto where
  instanceId : Option String := none
  instanceName : Option String := none
  integration : Option String := none
  token : Option String := none
  number : Option String := none
  businessId : Option String := none
  connectionStatus : Option String := none
  ownerJid : Option String := none
  profileName : Option String := none
  profilePicUrl : Option String := none
deriving DecidableEq, Repr

/-- A JSON-serialisable cache value: either a plain string or an instance
record object. JSON.stringify / JSON.parse round-trip is the identity on
these, so serialisation is not modelled separately. -/
inductive SVal
  | s (v : String)
  | obj (d : InstanceDto)
deriving DecidableEq, Repr

/-- A physical Redis value: a string cell (with optional expiry, seconds) or
a hash of fields. Mixing the two shapes under one key is the WRONGTYPE
defect class this subsystem repairs. -/
inductive RVal
  | str (v : SVal) (expiry : Option Nat)
  | hash (fields : List (String × SVal))
deriving DecidableEq, Repr

/-- The Redis keyspace. -/
abbrev RedisStore := List (String × RVal)

/-- Lookup of a physical key. -/
def storeGet (st : RedisStore) (k : String) : Option RVal :=
  assocFind st k

/-- Write a physical key. -/
def storeSet (st : RedisStore) (k : String) (v : RVal) : RedisStore :=
  assocSet st k v

/-- `DEL key`. -/
def clientDel (st : RedisStore) (k : String) : RedisStore :=
  assocErase st k

/-- The only Redis error the embedded code distinguishes. -/
inductive RedisErr
  | wrongtype
deriving DecidableEq, Repr

/-- `TYPE key` as the string the node client returns. -/
def clientType (st : RedisStore) (k : String) : String :=
  match storeGet st k with
  | none => "none"
  | some (.str _ _) => "string"
  | some (.hash _) => "hash"

/-- `GET key`: raises WRONGTYPE against a hash-shaped key. -/
def clientGet (st : RedisStore) (k : String) : Except RedisErr (Option SVal) :=
  match storeGet st k with
  | none => .ok none
  | some (.str v _) => .ok (some v)
  | some (.hash _) => .error .wrongtype

/-- `SET key v` with no expiry. The embedded RedisCache defends every
operation, including writes, against WRONGTYPE, so the client model raises
WRONGTYPE on any shape mismatch. -/
def clientSet (st : RedisStore) (k : String) (v : SVal) : Except RedisErr RedisStore :=
  match storeGet st k with
  | some (.hash _) => .error .wrongtype
  | _ => .ok (storeSet st k (.str v none))

/-- `SETEX key ttl v`. -/
def clientSetEx (st : RedisStore) (k : String) (ttl : Nat) (v : SVal) :
    Except RedisErr RedisStore :=
  match storeGet st k with
  | some (.hash _) => .error .wrongtype
  | _ => .ok (storeSet st k (.str v (some ttl)))

/-- `HGET key field`. -/
def clientHGet (st : RedisStore) (k f : String) : Except RedisErr (Option SVal) :=
  match storeGet st k with
  | none => .ok none
  | some (.str _ _) => .error .wrongtype
  | some (.hash l) => .ok (assocFind l f)

/-- `HSET key field v`. -/
def clientHSet (st : RedisStore) (k f : String) (v : SVal) :
    Except RedisErr RedisStore :=
  match storeGet st k with
  | some (.str _ _) => .error .wrongtype
  | some (.hash l) => .ok (storeSet st k (.hash (assocSet l f v)))
  | none => .ok (storeSet st k (.hash [(f, v)]))

/-! ## RedisCache (src/cache/rediscache.ts, shipped as unnamed part_001)

`CacheConf` carries PREFIX_KEY, the module name and the configured default
TTL. The CacheService wrapper used by the services (cache.service.ts is not
among the sources) is a pass-through to this class with module `instance`,
as witnessed by the physical key format `evolution_cache:instance:<id>`
documented in session-restoration.service.ts. -/

structure CacheConf where
  keyNs : String
  module : String
  ttlDefault : Nat
deriving DecidableEq, Repr

/-- `buildKey`: physical key `PREFIX_KEY:module:key`. -/
def buildKey (conf : CacheConf) (key : String) : String :=
  conf.keyNs ++ ":" ++ conf.module ++ ":" ++ key

/-- One low-level client call, for observing traces (which write was a plain
SET versus an expiring SETEX, whether a repair deleted and retried). -/
inductive ClientOp
  | getOp (k : String)
  | setPlainOp (k : String) (v : SVal)
  | setExOp (k : String) (ttl : Nat) (v : SVal)
  | hGetOp (k f : String)
  | hSetOp (k f : String) (v : SVal)
  | delOp (k : String)
  | typeOp (k : String)
deriving DecidableEq, Repr

/-- Result of a RedisCache method: returned value, resulting keyspace, and
the trace of client calls it made. -/
structure CacheOut (α : Type) where
  value : α
  store : RedisStore
  trace : List ClientOp
deriving Repr

instance {α : Type} [DecidableEq α] : DecidableEq (CacheOut α) := by
  intro a b
  cases a
  cases b
  simp only [CacheOut.mk.injEq]
  infer_instance

/-- The original operation `handleWrongTypeError` is asked to repair. -/
inductive WrongOp
  | getOp
  | hGetOp (field : String)
  | setOp (value : SVal) (ttl : Option Nat)
  | hSetOp (field : String) (value : SVal)
deriving DecidableEq, Repr

/-- `ttl || this.conf?.TTL` (only reached when `ttl` is not `0`). -/
def ttlOrDefault (conf : CacheConf) (ttl : Option Nat) : Nat :=
  match ttl with
  | none => conf.ttlDefault
  | some n => if n = 0 then conf.ttlDefault else n

namespace RedisCache

/-- `handleWrongTypeError` (part_001 lines 240-285): query the key type;
if the key exists, delete it; for reads return null, for writes retry the
original write once against the now-empty key. Any error inside the handler
is swallowed and null returned. -/
def handleWrongTypeError (conf : CacheConf) (st : RedisStore) (key : String)
    (op : WrongOp) : CacheOut (Option SVal) :=
  let fullKey := buildKey conf key
  let keyType := clientType st fullKey
  if keyType ≠ "none" then
    let st1 := clientDel st fullKey
    match op with
    | .getOp => ⟨none, st1, [.typeOp fullKey, .delOp fullKey]⟩
    | .hGetOp _ => ⟨none, st1, [.typeOp fullKey, .delOp fullKey]⟩
    | .setOp v ttl =>
        if ttl = some 0 then
          match clientSet st1 fullKey v with
          | .ok st2 => ⟨none, st2, [.typeOp fullKey, .delOp fullKey, .setPlainOp fullKey v]⟩
          | .error _ => ⟨none, st1, [.typeOp fullKey, .delOp fullKey, .setPlainOp fullKey v]⟩
        else
          let t := ttlOrDefault conf ttl
          match clientSetEx st1 fullKey t v with
          | .ok st2 => ⟨none, st2, [.typeOp fullKey, .delOp fullKey, .setExOp fullKey t v]⟩
          | .error _ => ⟨none, st1, [.typeOp fullKey, .delOp fullKey, .setExOp fullKey t v]⟩
    | .hSetOp f v =>
        match clientHSet st1 fullKey f v with
        | .ok st2 => ⟨none, st2, [.typeOp fullKey, .delOp fullKey, .hSetOp fullKey f v]⟩
        | .error _ => ⟨none, st1, [.typeOp fullKey, .delOp fullKey, .hSetOp fullKey f v]⟩
  else
    ⟨none, st, [.typeOp fullKey]⟩

/-- `get` (part_001 lines 100-114): parse the stored cell; on WRONGTYPE run
the repair handler; errors never propagate to the caller. -/
def get (conf : CacheConf) (st : RedisStore) (key : String) : CacheOut (Option SVal) :=
  let fullKey := buildKey conf key
  match clientGet st fullKey with
  | .ok r => ⟨r, st, [.getOp fullKey]⟩
  | .error .wrongtype =>
      let h := handleWrongTypeError conf st key .getOp
      ⟨h.value, h.store, .getOp fullKey :: h.trace⟩

/-- `set` (part_001 lines 137-159): TTL `0` issues a plain SET with no
expiry, anything else an expiring SETEX with `ttl || conf.TTL`; WRONGTYPE
goes through the repair handler. -/
def set (conf : CacheConf) (st : RedisStore) (key : String) (v : SVal)
    (ttl : Option Nat) : CacheOut (Option SVal) :=
  let fullKey := buildKey conf key
  if ttl = some 0 then
    match clientSet st fullKey v with
    | .ok st1 => ⟨none, st1, [.setPlainOp fullKey v]⟩
    | .error .wrongtype =>
        let h := handleWrongTypeError conf st key (.setOp v ttl)
        ⟨h.value, h.store, .setPlainOp fullKey v :: h.trace⟩
  else
    let t := ttlOrDefault conf ttl
    match clientSetEx st fullKey t v with
    | .ok st1 => ⟨none, st1, [.setExOp fullKey t v]⟩
    | .error .wrongtype =>
        let h := handleWrongTypeError conf st key (.setOp v ttl)
        ⟨h.value, h.store, .setExOp fullKey t v :: h.trace⟩

/-- `hGet` (part_001 lines 116-135). -/
def hGet (conf : CacheConf) (st : RedisStore) (key field : String) :
    CacheOut (Option SVal) :=
  let fullKey := buildKey conf key
  match clientHGet st fullKey field with
  | .ok r => ⟨r, st, [.hGetOp fullKey field]⟩
  | .error .wrongtype =>
      let h := handleWrongTypeError conf st key (.hGetOp field)
      ⟨h.value, h.store, .hGetOp fullKey field :: h.trace⟩

/-- `hSet` (part_001 lines 161-177). -/
def hSet (conf : CacheConf) (st : RedisStore) (key field : String) (v : SVal) :
    CacheOut (Option SVal) :=
  let fullKey := buildKey conf key
  match clientHSet st fullKey field v with
  | .ok st1 => ⟨none, st1, [.hSetOp fullKey field v]⟩
  | .error .wrongtype =>
      let h := handleWrongTypeError conf st key (.hSetOp field v)
      ⟨h.value, h.store, .hSetOp fullKey field v :: h.trace⟩

/-- `delete` (part_001 lines 187-193). -/
def del (conf : CacheConf) (st : RedisStore) (key : String) : RedisStore :=
  clientDel st (buildKey conf key)

/-- The keys method with empty criteria (part_001 lines 216-231): scan the
pattern PREFIX:module:* and drop duplicates, keeping first occurrences. -/
def keysList (conf : CacheConf) (st : RedisStore) : List String :=
  dedupFirst []
    ((assocKeys st).filter (fun k => jsStartsWith k (buildKey conf "")))

/-- The expected-shape classifier of `cleanupCorruptedKeys` (part_001 line
319): a logical key containing a colon or a hyphen is expected hash-shaped,
everything else string-shaped. -/
def shouldBeHashKey (logicalKey : String) : Bool :=
  jsIncludes logicalKey ":" || jsIncludes logicalKey "-"

/-- The per-key body of the cleanup scan: delete the key when its physical
type disagrees with the expected shape of its logical key. -/
def cleanupScan (conf : CacheConf) : List String → RedisStore → Nat → RedisStore × Nat
  | [], st, n => (st, n)
  | k :: rest, st, n =>
      let keyType := clientType st k
      let logicalKey := jsReplaceFirst k (buildKey conf "")
      let expectHash := shouldBeHashKey logicalKey
      let expectString := !expectHash
      if (expectHash && keyType != "hash")
          || (expectString && keyType != "string" && keyType != "none") then
        cleanupScan conf rest (clientDel st k) (n + 1)
      else
        cleanupScan conf rest st n

/-- `cleanupCorruptedKeys` (part_001 lines 303-338): scan the module prefix
and delete each key whose physical shape disagrees with the classifier. -/
def cleanupCorruptedKeys (conf : CacheConf) (st : RedisStore) : RedisStore × Nat :=
  cleanupScan conf
    ((assocKeys st).filter (fun k => jsStartsWith k (buildKey conf ""))) st 0

end RedisCache

/-! ## Instance registry (WAMonitoringService.waInstances)

A live instance is a channel object; `objTag` models JS object identity (a
fresh tag is allocated by every `channelController.init` call). The
transport fields mirror what the health monitor reads: `client` truthiness,
`client.ws` truthiness and readyState, and `client.user` with its `id`. -/

structure WAInstance where
  objTag : Nat
  instanceId : Option String := none
  instanceName : Option String := none
  integration : Option String := none
  token : Option String := none
  number : Option String := none
  businessId : Option String := none
  connState : Option String := none
  hasClient : Bool := false
  wsPresent : Bool := false
  wsReadyState : Nat := 0
  user : Option (Option String) := none
  phoneNumber : Option String := none
deriving DecidableEq, Repr

/-- The in-memory instance registry, keyed by instance name. -/
abbrev Registry := List (String × WAInstance)

/-- Registry lookup (`waMonitor.waInstances[name]`). -/
def lookupReg (reg : Registry) (name : String) : Option WAInstance :=
  assocFind reg name

/-- Registry keys. -/
def regKeys (reg : Registry) : List String :=
  assocKeys reg

/-- A JS property key: an undefined name indexes as the string `undefined`. -/
def jsKeyName (o : Option String) : String :=
  o.getD "undefined"

/-- The instance object `channelController.init` + `instance.setInstance`
construct for a restoration payload. The transport fields are established
later by `connectToWhatsapp` in the channel layer (outside these sources)
and are irrelevant to the registry-level claims, so they keep their initial
values here. -/
def mkInstance (tag : Nat) (d : InstanceDto) : WAInstance :=
  { objTag := tag
    instanceId := d.instanceId
    instanceName := d.instanceName
    integration := d.integration
    token := d.token
    number := d.number
    businessId := d.businessId
    phoneNumber := d.number }

namespace WAMonitoringService

/-- `setInstance` (monitor.service.ts lines 310-335): construct a fresh
instance object, connect it, and assign it into the registry unconditionally
(`this.waInstances[instanceData.instanceName] = instance`). `tag` is the
allocation counter for the fresh object; it returns the next counter. -/
def setInstance (reg : Registry) (tag : Nat) (d : InstanceDto) : Registry × Nat :=
  (assocSet reg (jsKeyName d.instanceName) (mkInstance tag d), tag + 1)

end WAMonitoringService

/-! ## SessionRestorationService (session-restoration.service.ts) -/

/-- Result of one `restoreInstance` call: registry, allocation counter,
keyspace and the cache-client trace it produced. -/
structure RestoreStepOut where
  reg : Registry
  ctr : Nat
  store : RedisStore
  trace : List ClientOp
deriving Repr

namespace SessionRestorationService

/-- `restoreInstance` (lines 247-274): skip when the payload has no (truthy)
instanceName; skip when the name is already registered; otherwise register
through `WAMonitoringService.setInstance` and write the `restored:` marker
with a 300-second TTL. -/
def restoreInstance (conf : CacheConf) (st : RedisStore) (reg : Registry)
    (ctr : Nat) (d : InstanceDto) : RestoreStepOut :=
  if jsTruthyStr d.instanceName = false then ⟨reg, ctr, st, []⟩
  else
    let name := d.instanceName.getD ""
    match lookupReg reg name with
    | some _ => ⟨reg, ctr, st, []⟩
    | none =>
        let r1 := WAMonitoringService.setInstance reg ctr d
        let w := RedisCache.set conf st ("restored:" ++ name) (.s "true") (some 300)
        ⟨r1.1, r1.2, w.store, w.trace⟩

end SessionRestorationService

/-- One row of the durable Instance table, restricted to the fields the
restoration query reads. -/
structure DbInstance where
  id : String
  name : String
  clientName : String
  connectionStatus : String
  integration : Option String := none
  token : Option String := none
  number : Option String := none
  businessId : Option String := none
deriving DecidableEq, Repr

/-- The InstanceDto `restoreFromDatabase` builds from a row (lines 181-216;
the webhook / chatwoot / proxy / setting sub-records do not affect the
claims and are omitted from the payload model). -/
def dtoOfDbInstance (r : DbInstance) : InstanceDto :=
  { instanceId := some r.id
    instanceName := some r.name
    integration := r.integration
    token := r.token
    number := r.number
    businessId := r.businessId }

/-- Result of one restoration stage: registry, counter, keyspace and the
number of records the stage counted as restored. -/
structure StageOut where
  reg : Registry
  ctr : Nat
  store : RedisStore
  restored : Nat
deriving Repr

/-- The `findMany` filter of `restoreFromDatabase` (lines 157-169): rows of
this client whose last connection status was open or connecting. -/
def eligibleDbInstances (clientName : String) (table : List DbInstance) :
    List DbInstance :=
  table.filter (fun r =>
    r.clientName = clientName
      ∧ (r.connectionStatus = "open" ∨ r.connectionStatus = "connecting"))

namespace SessionRestorationService

/-- The per-row loop of `restoreFromDatabase` (lines 178-224): each row is
restored and counted; `restoreInstance` only throws on storage errors,
which the sequential model excludes, so every row increments the counter. -/
def dbRestoreLoop (conf : CacheConf) :
    List DbInstance → RedisStore → Registry → Nat → StageOut
  | [], st, reg, ctr => ⟨reg, ctr, st, 0⟩
  | r :: rest, st, reg, ctr =>
      let s := restoreInstance conf st reg ctr (dtoOfDbInstance r)
      let out := dbRestoreLoop conf rest s.store s.reg s.ctr
      { out with restored := out.restored + 1 }

/-- `restoreFromDatabase` (lines 153-233). -/
def restoreFromDatabase (conf : CacheConf) (clientName : String)
    (table : List DbInstance) (st : RedisStore) (reg : Registry) (ctr : Nat) :
    StageOut :=
  dbRestoreLoop conf (eligibleDbInstances clientName table) st reg ctr

/-- The candidate filter of `restoreFromRedisCache` (lines 86-96): split the
physical key on colons; a candidate needs at least three parts with
`instance` second; the logical key is the remaining parts re-joined. -/
def extractInstanceKey (fullKey : String) : Option String :=
  let keyParts := jsSplitColon fullKey
  if 3 ≤ keyParts.length ∧ keyParts[1]? = some "instance" then
    some (jsJoin ":" (keyParts.drop 2))
  else none

/-- The auxiliary-key skip test (lines 91-95). -/
def skipAuxKey (instanceKey : String) : Bool :=
  jsIncludes instanceKey "connecting_time" || jsIncludes instanceKey "restored"
    || jsIncludes instanceKey "creds" || jsIncludes instanceKey "-"

/-- What the cache-restoration loop decides to do with one scanned key. -/
inductive KeyDecision
  | notCandidate
  | skipKey (instanceKey : String)
  | attemptKey (instanceKey : String)
deriving DecidableEq, Repr

/-- The decision the loop body takes for one physical key. -/
def cacheKeyDecision (fullKey : String) : KeyDecision :=
  match extractInstanceKey fullKey with
  | none => .notCandidate
  | some k => if skipAuxKey k then .skipKey k else .attemptKey k

/-- Whether a decision leads to a read/restore attempt. -/
def isAttemptDecision : KeyDecision → Bool
  | .attemptKey _ => true
  | _ => false

/-- The record validation of lines 104-107: the parsed value must be an
object carrying a truthy instanceName or instanceId (a JSON string parses
to a string, which has neither field). -/
def validInstanceData : SVal → Option InstanceDto
  | .s _ => none
  | .obj d =>
      if jsTruthyStr d.instanceName || jsTruthyStr d.instanceId then some d
      else none

/-- The per-key loop of `restoreFromRedisCache` (lines 82-134). The per-key
database fallback (lines 117-129) only runs when the cache read throws,
which `RedisCache.get` never does (it repairs WRONGTYPE internally and maps
other failures to null), so it is unreachable in the sequential model. -/
def redisRestoreLoop (conf : CacheConf) :
    List String → RedisStore → Registry → Nat → StageOut
  | [], st, reg, ctr => ⟨reg, ctr, st, 0⟩
  | fullKey :: rest, st, reg, ctr =>
      match cacheKeyDecision fullKey with
      | .notCandidate => redisRestoreLoop conf rest st reg ctr
      | .skipKey _ => redisRestoreLoop conf rest st reg ctr
      | .attemptKey k =>
          let r := RedisCache.get conf st k
          match r.value with
          | none => redisRestoreLoop conf rest r.store reg ctr
          | some v =>
              match validInstanceData v with
              | none => redisRestoreLoop conf rest r.store reg ctr
              | some d =>
                  let s := restoreInstance conf r.store reg ctr d
                  let out := redisRestoreLoop conf rest s.store s.reg s.ctr
                  { out with restored := out.restored + 1 }

/-- `restoreFromRedisCache` (lines 60-151): run the corruption sweep, scan
the keyspace once, then process every scanned key. -/
def restoreFromRedisCache (conf : CacheConf) (st : RedisStore) (reg : Registry)
    (ctr : Nat) : StageOut :=
  let c := RedisCache.cleanupCorruptedKeys conf st
  let ks := RedisCache.keysList conf c.1
  redisRestoreLoop conf ks c.1 reg ctr

end SessionRestorationService

/-- The configuration the restoration and persistence paths read. -/
structure AppConfig where
  cacheConf : CacheConf
  redisEnabled : Bool
  saveInstances : Bool
  dbSaveInstance : Bool
  clientName : String
deriving Repr

/-- Result of one `restoreAllSessions` run: final registry, counter and
keyspace, which stages were attempted, and each stage count. -/
structure RestoreRunOut where
  reg : Registry
  ctr : Nat
  store : RedisStore
  cacheAttempted : Bool
  dbAttempted : Bool
  providerAttempted : Bool
  cacheCount : Nat
  dbCount : Nat
  providerCount : Nat
deriving Repr

namespace SessionRestorationService

/-- `restoreAllSessions` (lines 27-58): the cache stage runs when the cache
tier is enabled with instance saving, the database stage runs whenever
`SAVE_DATA.INSTANCE` is enabled, and only the provider stage is gated on the
prior stages having restored zero. `restoreFromProviderFiles` (lines
235-245) is a stub that always returns zero in the source. -/
def restoreAllSessions (cfg : AppConfig) (table : List DbInstance)
    (st : RedisStore) (reg : Registry) (ctr : Nat) : RestoreRunOut :=
  let cacheOn := cfg.redisEnabled && cfg.saveInstances
  let s1 :=
    if cacheOn then restoreFromRedisCache cfg.cacheConf st reg ctr
    else ⟨reg, ctr, st, 0⟩
  let s2 :=
    if cfg.dbSaveInstance then
      restoreFromDatabase cfg.cacheConf cfg.clientName table s1.store s1.reg s1.ctr
    else ⟨s1.reg, s1.ctr, s1.store, 0⟩
  let total := s1.restored + s2.restored
  { reg := s2.reg
    ctr := s2.ctr
    store := s2.store
    cacheAttempted := cacheOn
    dbAttempted := cfg.dbSaveInstance
    providerAttempted := total = 0
    cacheCount := s1.restored
    dbCount := s2.restored
    providerCount := 0 }

end SessionRestorationService

/-- The durable update `persistInstanceState` issues (lines 364-374). -/
structure DbUpdateRec where
  id : String
  connectionStatus : String
  ownerJid : Option String := none
  profileName : Option String := none
  profilePicUrl : Option String := none
  number : Option String := none
deriving DecidableEq, Repr

/-- Result of `persistInstanceState`: keyspace, cache-client trace and the
durable updates issued. -/
structure PersistOut where
  store : RedisStore
  trace : List ClientOp
  dbWrites : List DbUpdateRec
deriving Repr

namespace SessionRestorationService

/-- The cache key `persistInstanceState` writes under
(`instanceData.instanceId || instanceName`, line 356). -/
def persistCacheKey (instanceName : String) (d : InstanceDto) : String :=
  jsOrStr d.instanceId instanceName

/-- `persistInstanceState` (lines 352-381), error-free run: the primary
record goes to the cache tier with TTL `0`, i.e. a plain SET with no
expiry; the durable tier gets a connection-status update when enabled and
an instanceId is present. -/
def persistInstanceState (cfg : AppConfig) (st : RedisStore)
    (instanceName : String) (d : InstanceDto) : PersistOut :=
  let r :=
    if cfg.redisEnabled && cfg.saveInstances then
      RedisCache.set cfg.cacheConf st (persistCacheKey instanceName d) (.obj d) (some 0)
    else ⟨none, st, []⟩
  let dbw :=
    if cfg.dbSaveInstance && jsTruthyStr d.instanceId then
      [{ id := d.instanceId.getD ""
         connectionStatus := jsOrStr d.connectionStatus "open"
         ownerJid := d.ownerJid
         profileName := d.profileName
         profilePicUrl := d.profilePicUrl
         number := d.number }]
    else []
  ⟨r.store, r.trace, dbw⟩

end SessionRestorationService

/-- Observable outcome of `persistInstanceState` with injected tier
failures. Both tier writes live in one try/catch (lines 353-380): an error
thrown by the cache write jumps to the catch, so the durable write is never
reached; the catch only logs, so nothing is raised to the caller. `redisOn`
abbreviates REDIS.ENABLED && REDIS.SAVE_INSTANCES, `hasId` the truthiness
of `instanceData.instanceId`. -/
structure PersistTierOutcome where
  cacheAttempted : Bool
  cacheSucceeded : Bool
  dbAttempted : Bool
  dbSucceeded : Bool
  raised : Bool
deriving DecidableEq, Repr

/-- `persistInstanceState` control flow with failure injection: `cacheFails`
models the cache write throwing (RedisCache.set rethrows non-WRONGTYPE
client errors), `dbFails` the prisma update rejecting. -/
def persistTierOutcome (redisOn dbOn hasId cacheFails dbFails : Bool) :
    PersistTierOutcome :=
  if redisOn then
    if cacheFails then
      { cacheAttempted := true, cacheSucceeded := false
        dbAttempted := false, dbSucceeded := false, raised := false }
    else if dbOn && hasId then
      { cacheAttempted := true, cacheSucceeded := true
        dbAttempted := true, dbSucceeded := !dbFails, raised := false }
    else
      { cacheAttempted := true, cacheSucceeded := true
        dbAttempted := false, dbSucceeded := false, raised := false }
  else if dbOn && hasId then
    { cacheAttempted := false, cacheSucceeded := false
      dbAttempted := true, dbSucceeded := !dbFails, raised := false }
  else
    { cacheAttempted := false, cacheSucceeded := false
      dbAttempted := false, dbSucceeded := false, raised := false }

/-! ## ConnectionHealthService (unnamed part_002)

The per-instance sweep body. Effects on the instance object, the durable
store and the webhook layer are recorded as an action list; the keyspace is
threaded for the connecting-timeout branch, which reads and clears the
connect-start marker. -/

def integrationBaileys : String := "WHATSAPP_BAILEYS"

/-- Observable effects of one health-sweep step. -/
inductive HealthAction
  | probe (name : String) (ok : Bool)
  | wsClose (name : String)
  | setState (name state : String)
  | dbUpdateStatus (id : Option String) (status : String)
  | correctionWebhook (name : String)
  | reconnect (name : String)
deriving DecidableEq, Repr

/-- Whether an action is the false-disconnect correction webhook
(the sendDataWebhook CONNECTION_UPDATE call carrying the corrected flag). -/
def isCorrectionWebhook : HealthAction → Bool
  | .correctionWebhook _ => true
  | _ => false

/-- `isWebSocketHealthy` (part_002 lines 114-119): the client and its
socket exist and the socket readyState is OPEN. -/
def isWebSocketHealthy (inst : WAInstance) : Bool :=
  inst.hasClient && inst.wsPresent && inst.wsReadyState == 1

/-- `performPingTest` (part_002 lines 121-138): fails unless the socket is
open; then resolves with `client.user` if present, rejects otherwise (the
10-second timeout cannot fire before the immediate resolution in the
sequential model). -/
def performPingTest (inst : WAInstance) : Bool :=
  isWebSocketHealthy inst && inst.user.isSome

/-- `client && client.user && client.user.id` (part_002 line 88). -/
def hasValidClientUser (inst : WAInstance) : Bool :=
  inst.hasClient &&
    (match inst.user with
     | some uid => jsTruthyStr uid
     | none => false)

namespace ConnectionHealthService

/-- `handleConnectionMismatch` (part_002 lines 140-152): downgrade the
declared state and reconnect. -/
def handleConnectionMismatch (name : String) (inst : WAInstance) :
    WAInstance × List HealthAction :=
  ({ inst with connState := some "close" },
   [.setState name "close", .reconnect name])

/-- `handleConnectionFailure` (part_002 lines 154-169): close the socket if
present, downgrade the declared state, reconnect. -/
def handleConnectionFailure (name : String) (inst : WAInstance) :
    WAInstance × List HealthAction :=
  ({ inst with connState := some "close" },
   (if inst.hasClient && inst.wsPresent then [HealthAction.wsClose name] else [])
     ++ [.setState name "close", .reconnect name])

/-- `correctFalseDisconnection` (part_002 lines 191-248): re-run the
liveness probe; on success restore the declared state to open, update the
durable record and emit one correction webhook; on failure fall through to
the normal failure handler. -/
def correctFalseDisconnection (name : String) (inst : WAInstance) :
    WAInstance × List HealthAction :=
  if performPingTest inst then
    ({ inst with connState := some "open" },
     [.probe name true, .setState name "open",
      .dbUpdateStatus inst.instanceId "open", .correctionWebhook name])
  else
    let r := handleConnectionFailure name inst
    (r.1, .probe name false :: r.2)

/-- `getConnectingTime` (part_002 lines 250-257) applied to a read cache
value: `timestamp ? parseInt(timestamp) : null`. -/
def connectingTimeOf : Option SVal → Option Nat
  | some (.s t) => jsParseNat t
  | _ => none

/-- `handleConnectionTimeout` (part_002 lines 171-189): close the socket if
present, clear the connect-start marker, downgrade and reconnect. -/
def handleConnectionTimeout (conf : CacheConf) (st : RedisStore)
    (name : String) (inst : WAInstance) :
    WAInstance × RedisStore × List HealthAction :=
  ({ inst with connState := some "close" },
   RedisCache.del conf st ("connecting_time:" ++ name),
   (if inst.hasClient && inst.wsPresent then [HealthAction.wsClose name] else [])
     ++ [.setState name "close", .reconnect name])

/-- `CONNECTION_TIMEOUT` (part_002 line 11). -/
def connectionTimeoutMs : Nat := 120000

/-- `checkInstanceHealth` (part_002 lines 51-112). The source captures
`connectionStatus` once and tests it against open, close and connecting in
sequence; the three tests are mutually exclusive on the captured state, so
they are rendered as one conditional chain. `now` is `Date.now()`. -/
def checkInstanceHealth (conf : CacheConf) (now : Nat) (st : RedisStore)
    (name : String) (inst : WAInstance) :
    WAInstance × RedisStore × List HealthAction :=
  if inst.integration ≠ some integrationBaileys then (inst, st, [])
  else if inst.connState = some "open" then
    if isWebSocketHealthy inst = false then
      let r := handleConnectionMismatch name inst
      (r.1, st, r.2)
    else if performPingTest inst = false then
      let r := handleConnectionFailure name inst
      (r.1, st, HealthAction.probe name false :: r.2)
    else (inst, st, [HealthAction.probe name true])
  else if inst.connState = some "close" then
    if isWebSocketHealthy inst = true ∧ hasValidClientUser inst = true then
      let r := correctFalseDisconnection name inst
      (r.1, st, r.2)
    else (inst, st, [])
  else if inst.connState = some "connecting" then
    let r := RedisCache.get conf st ("connecting_time:" ++ name)
    match connectingTimeOf r.value with
    | some t0 =>
        if connectionTimeoutMs < now - t0 then
          handleConnectionTimeout conf r.store name inst
        else (inst, r.store, [])
    | none => (inst, r.store, [])
  else (inst, st, [])

/-- `setConnectingTime` (part_002 lines 259-265): the connect-start marker
is written with a 300-second TTL. -/
def setConnectingTime (conf : CacheConf) (st : RedisStore) (name : String)
    (now : Nat) : CacheOut (Option SVal) :=
  RedisCache.set conf st ("connecting_time:" ++ name) (.s (toString now)) (some 300)

end ConnectionHealthService

/-! ## GracefulShutdownService (graceful-shutdown.service.ts)

The drain is modelled per instance by whether its persist write fails and
whether its graceful close times out. Per-instance errors are caught inside
the `Promise.allSettled` map callbacks (lines 102-126 and 142-155), and
`persistInstanceState` additionally swallows its own errors, so no step of
`performGracefulShutdown` can reject in the sequential model and
`initiateShutdown` reaches `process.exit(0)`. The 30-second deadline timer
(line 51) is a real-time race and is outside the sequential model; the
modelled drain always completes. -/

structure ShutInst where
  name : String
  persistFails : Bool
  closeTimesOut : Bool
deriving DecidableEq, Repr

/-- One observable shutdown event. -/
inductive ShutEvent
  | stopHealthMonitoring
  | persistAttempt (name : String) (ok : Bool)
  | closeAttempt (name : String) (forced : Bool)
  | cleanupDone
deriving DecidableEq, Repr

/-- Whether an event is a persisted-state attempt. -/
def isPersistEvent : ShutEvent → Bool
  | .persistAttempt _ _ => true
  | _ => false

/-- How `initiateShutdown` ends. -/
inductive ShutdownOutcome
  | exited (code : Nat)
  | ignoredSignal
deriving DecidableEq, Repr

namespace GracefulShutdownService

/-- `saveAllInstanceStates` (lines 97-135): one persist attempt per
registered instance; a failing attempt is caught and logged inside its map
callback and the `Promise.allSettled` loop continues. -/
def saveAllInstanceStates (insts : List ShutInst) : List ShutEvent :=
  insts.map (fun i => .persistAttempt i.name (!i.persistFails))

/-- `closeAllConnections` (lines 137-164): one close attempt per instance;
a timeout is caught and the socket force-terminated. -/
def closeAllConnections (insts : List ShutInst) : List ShutEvent :=
  insts.map (fun i => .closeAttempt i.name i.closeTimesOut)

/-- `performGracefulShutdown` (lines 70-95): the four ordered steps. -/
def performGracefulShutdown (insts : List ShutInst) : List ShutEvent :=
  ShutEvent.stopHealthMonitoring
    :: (saveAllInstanceStates insts ++ closeAllConnections insts
        ++ [ShutEvent.cleanupDone])

/-- `initiateShutdown` (lines 42-68): the re-entrant guard makes a second
signal a no-op; otherwise the drain runs and, since no step can reject,
exits with code 0. -/
def initiateShutdown (isShuttingDown : Bool) (insts : List ShutInst) :
    ShutdownOutcome × List ShutEvent :=
  if isShuttingDown then (.ignoredSignal, [])
  else (.exited 0, performGracefulShutdown insts)

end GracefulShutdownService

/-! ## SendMessageController (sendMessage.controller.ts) -/

/-- The displayed state in the rejection message (line 49): the declared
state when truthy, the word unknown otherwise. -/
def displayState (c : Option String) : String :=
  jsOrStr c "unknown"

/-- The message-send effect on the channel layer. -/
inductive SendAction
  | textMessage (instanceName : String) (data : String)
deriving DecidableEq, Repr

namespace SendMessageController

/-- `validateInstanceReady` (lines 35-59): reject unknown instances, then
instances whose declared state is not open (naming the instance and its
current state), then instances missing client or instanceId. -/
def validateInstanceReady (reg : Registry) (instanceName : String) :
    Except String Unit :=
  match lookupReg reg instanceName with
  | none =>
      .error ("Instance \"" ++ instanceName
        ++ "\" not found. Please ensure the instance is created and connected.")
  | some inst =>
      if inst.connState ≠ some "open" then
        .error ("Instance \"" ++ instanceName
          ++ "\" is not ready for message sending. Current state: "
          ++ displayState inst.connState
          ++ ". Please wait for the instance to connect.")
      else if !inst.hasClient || !jsTruthyStr inst.instanceId then
        .error ("Instance \"" ++ instanceName
          ++ "\" is missing critical components. Please reconnect the instance.")
      else .ok ()

/-- `sendText` (lines 66-69): validate, then dispatch to the instance. The
registry is returned unchanged (the validation path performs no writes);
the action list records whether the send reached the channel layer. -/
def sendText (reg : Registry) (instanceName : String) (data : String) :
    Except String Unit × List SendAction × Registry :=
  match validateInstanceReady reg instanceName with
  | .error e => (.error e, [], reg)
  | .ok _ => (.ok (), [.textMessage instanceName data], reg)

end SendMessageController

/-! ## Concrete inputs used by counterexamples and witnesses -/

def egCacheConf : CacheConf := ⟨"evolution_cache", "instance", 3600⟩

def egCfg : AppConfig :=
  { cacheConf := egCacheConf
    redisEnabled := true
    saveInstances := true
    dbSaveInstance := true
    clientName := "evolution" }

def egDto : InstanceDto :=
  { instanceId := some "alphaid", instanceName := some "alpha" }

/-- A keyspace holding one valid primary instance record. -/
def egStore : RedisStore :=
  [("evolution_cache:instance:alpha", .str (.obj egDto) none)]

/-- A keyspace holding one correctly scalar-written connect-start marker. -/
def egMarkerStore : RedisStore :=
  [("evolution_cache:instance:connecting_time:alpha", .str (.s "12345") (some 300))]

/-- A registry already holding the instance object tagged 0 under alpha. -/
def egRegInstance : WAInstance := mkInstance 0 egDto

def egReg : Registry := [("alpha", egRegInstance)]

/-- A healthy-but-declared-closed Baileys instance for the health claims. -/
def egHealthInst : WAInstance :=
  { objTag := 7
    instanceId := some "alphaid"
    instanceName := some "alpha"
    integration := some integrationBaileys
    connState := some "close"
    hasClient := true
    wsPresent := true
    wsReadyState := 1
    user := some (some "5511999@s.whatsapp.net") }

/-- A registered instance whose declared state is connecting. -/
def egConnectingInst : WAInstance :=
  { objTag := 9
    instanceId := some "alphaid"
    instanceName := some "alpha"
    integration := some integrationBaileys
    connState := some "connecting"
    hasClient := true }

def egSendReg : Registry := [("alpha", egConnectingInst)]

/-- A database table with two eligible rows and one closed row. -/
def egDbTable : List DbInstance :=
  [{ id := "id1", name := "one", clientName := "evolution", connectionStatus := "open" },
   { id := "id2", name := "two", clientName := "evolution", connectionStatus := "connecting" },
   { id := "id3", name := "three", clientName := "evolution", connectionStatus := "close" }]

/-- A keyspace where the instance key k is corrupted to hash shape. -/
def egWrongStore : RedisStore :=
  [("evolution_cache:instance:k", .hash [("f0", .s "x")])]

/-- The configuration with only the durable tier enabled. -/
def egCfgDbOnly : AppConfig :=
  { cacheConf := egCacheConf
    redisEnabled := false
    saveInstances := false
    dbSaveInstance := true
    clientName := "evolution" }

/-! ## Association-list lemmas -/

theorem assocFind_assocSet_self {α : Type} (l : List (String × α)) (k : String)
    (v : α) : assocFind (assocSet l k v) k = some v := by
  induction l with
  | nil => simp [assocSet, assocFind]
  | cons e rest ih =>
      obtain ⟨k0, v0⟩ := e
      by_cases h : k0 = k
      · simp [assocSet, assocFind, h]
      · simp [assocSet, assocFind, h, ih]

theorem assocFind_assocSet_ne {α : Type} (l : List (String × α)) (k k2 : String)
    (v : α) (h : k2 ≠ k) :
    assocFind (assocSet l k v) k2 = assocFind l k2 := by
  induction l with
  | nil => simp [assocSet, assocFind, Ne.symm h]
  | cons e rest ih =>
      obtain ⟨k0, v0⟩ := e
      by_cases h0 : k0 = k
      · subst h0
        simp [assocSet, assocFind, Ne.symm h]
      · by_cases h2 : k0 = k2
        · simp [assocSet, assocFind, h0, h2, h]
        · simp [assocSet, assocFind, h0, h2, ih]

theorem assocFind_eq_none_iff {α : Type} (l : List (String × α)) (k : String) :
    assocFind l k = none ↔ k ∉ assocKeys l := by
  induction l with
  | nil => simp [assocFind, assocKeys]
  | cons e rest ih =>
      obtain ⟨k0, v0⟩ := e
      by_cases h : k0 = k
      · simp [assocFind, assocKeys, h]
      · simp only [assocFind, if_neg h, assocKeys, List.map_cons, List.mem_cons]
        rw [ih]
        constructor
        · intro hn hc
          rcases hc with hc | hc
          · exact h hc.symm
          · exact hn hc
        · intro hn hc
          exact hn (Or.inr hc)

theorem assocSet_fresh {α : Type} (l : List (String × α)) (k : String) (v : α)
    (h : assocFind l k = none) : assocSet l k v = l ++ [(k, v)] := by
  induction l with
  | nil => simp [assocSet]
  | cons e rest ih =>
      obtain ⟨k0, v0⟩ := e
      by_cases h0 : k0 = k
      · simp [assocFind, h0] at h
      · simp only [assocFind, if_neg h0] at h
        simp [assocSet, h0, ih h]

theorem assocKeys_append {α : Type} (l m : List (String × α)) :
    assocKeys (l ++ m) = assocKeys l ++ assocKeys m := by
  simp [assocKeys]

theorem assocKeys_assocSet_mem {α : Type} (l : List (String × α)) (k : String)
    (v : α) (h : k ∈ assocKeys l) :
    assocKeys (assocSet l k v) = assocKeys l := by
  induction l with
  | nil => simp [assocKeys] at h
  | cons e rest ih =>
      obtain ⟨k0, v0⟩ := e
      by_cases h0 : k0 = k
      · simp [assocSet, assocKeys, h0]
      · simp only [assocKeys, List.map_cons, List.mem_cons] at h
        rcases h with h1 | h1
        · exact absurd h1.symm h0
        · have hr := ih h1
          simp only [assocSet, if_neg h0, assocKeys, List.map_cons] at hr ⊢
          rw [hr]

theorem assocKeys_nodup_assocSet {α : Type} (l : List (String × α)) (k : String)
    (v : α) (h : (assocKeys l).Nodup) :
    (assocKeys (assocSet l k v)).Nodup := by
  by_cases hm : k ∈ assocKeys l
  · rw [assocKeys_assocSet_mem l k v hm]
    exact h
  · rw [assocSet_fresh l k v ((assocFind_eq_none_iff l k).mpr hm),
      assocKeys_append]
    refine List.Nodup.append h (by simp [assocKeys]) ?_
    intro a ha hb
    simp only [assocKeys, List.map_cons, List.map_nil, List.mem_singleton] at hb
    subst hb
    exact hm ha

theorem assocFind_assocErase_self {α : Type} (l : List (String × α)) (k : String) :
    assocFind (assocErase l k) k = none := by
  induction l with
  | nil => simp [assocErase, assocFind]
  | cons e rest ih =>
      obtain ⟨k0, v0⟩ := e
      by_cases h : k0 = k
      · simpa [assocErase, List.filter_cons, h] using ih
      · simpa [assocErase, List.filter_cons, h, assocFind] using ih

theorem assocFind_assocErase_ne {α : Type} (l : List (String × α)) (k k2 : String)
    (h : k2 ≠ k) : assocFind (assocErase l k) k2 = assocFind l k2 := by
  induction l with
  | nil => simp [assocErase, assocFind]
  | cons e rest ih =>
      obtain ⟨k0, v0⟩ := e
      by_cases h0 : k0 = k
      · subst h0
        simpa [assocErase, List.filter_cons, assocFind, Ne.symm h] using ih
      · by_cases h2 : k0 = k2
        · simp [assocErase, List.filter_cons, assocFind, h0, h2, h]
        · simpa [assocErase, List.filter_cons, assocFind, h0, h2] using ih

/-! ## Claim C3 -/

/-- C3: the claim states that the self-healing sweep classifier reports
map-shaped for every credential/auth-namespace key and scalar-shaped for
every plain instance-index key, including the scalar-written auxiliary
connect-timer and restoration-marker keys, so the sweep deletes only keys
whose actual shape disagrees with the shape they were written with. The
classifier of `cleanupCorruptedKeys` treats any logical key containing a
colon or hyphen as map-shaped, so the scalar-written auxiliary keys
`connecting_time:<name>` and `restored:<name>` are classified map-shaped,
and the sweep deletes such a correctly scalar-written marker key even
though its actual string shape matches how it was written. This evaluates
the classifier and the sweep at those failing inputs (the shape test of the
repository itself, part_008, expects these keys to be string-shaped). -/
theorem C3_marker_keys_misclassified :
    RedisCache.shouldBeHashKey "connecting_time:instance123" = true
    ∧ RedisCache.shouldBeHashKey "restored:instance123" = true
    ∧ RedisCache.shouldBeHashKey "auth:instance123" = true
    ∧ RedisCache.cleanupCorruptedKeys egCacheConf egMarkerStore = ([], 1) := by
  decide

/-! ## Claim C6 -/

/-- C6 counterexample: with both tiers enabled and the remote-cache write
throwing, `persistInstanceState` never attempts the durable-tier write: both
writes sit in one try/catch, so the thrown cache error jumps over the
database update. This refutes the claim that a failure of the remote-cache
write does not prevent the durable-tier write from being attempted. -/
theorem C6_counterexample :
    (persistTierOutcome true true true true false).cacheAttempted = true
    ∧ (persistTierOutcome true true true true false).dbAttempted = false := by
  decide

/-- C6 (amended): both tier writes of `persistInstanceState` sit in a single
try/catch, so a thrown remote-cache write error is caught but skips the
durable-tier write entirely; in the other direction a durable-tier failure
cannot undo the already-completed cache write; and no error is ever raised
to the caller. -/
theorem C6_single_catch_persist :
    ∀ redisOn dbOn hasId cacheFails dbFails : Bool,
      (persistTierOutcome redisOn dbOn hasId cacheFails dbFails).raised = false
      ∧ (redisOn = true → cacheFails = true →
          (persistTierOutcome redisOn dbOn hasId cacheFails dbFails).dbAttempted = false)
      ∧ (cacheFails = false →
          (persistTierOutcome redisOn dbOn hasId cacheFails dbFails).dbAttempted
            = (dbOn && hasId))
      ∧ (persistTierOutcome redisOn dbOn hasId cacheFails dbFails).cacheSucceeded
          = (redisOn && !cacheFails) := by
  intro redisOn dbOn hasId cacheFails dbFails
  cases redisOn <;> cases dbOn <;> cases hasId <;> cases cacheFails
    <;> cases dbFails <;> decide

/-- C6 witness: the amended theorem applied with both tiers enabled, a
failing cache write and a healthy database. -/
theorem C6_single_catch_persist_witness :
    (persistTierOutcome true true true true false).dbAttempted = false :=
  (C6_single_catch_persist true true true true false).2.1 rfl rfl

/-! ## Claim C7 -/

/-- C7 counterexample: `WAMonitoringService.setInstance` — the registration
step used by the startup load paths of the monitor itself — does not check the
registry: invoked for the already-registered name alpha it replaces the
existing live instance object (tag 0) with a freshly constructed one (tag
1), so a restoration attempt for an already-present name is not a no-op
that leaves the registry entry unchanged. -/
theorem C7_counterexample :
    lookupReg (WAMonitoringService.setInstance egReg 1 egDto).1 "alpha"
      ≠ some egRegInstance := by
  decide

/-- C7 (amended): the registry holds at most one live instance object per
name (registration preserves key uniqueness), and a restoration attempt
through `SessionRestorationService.restoreInstance` for an
already-registered name is a no-op leaving registry, counter and keyspace
unchanged; but `WAMonitoringService.setInstance`, used directly by the
startup load paths of the monitor, unconditionally replaces the existing entry
with a freshly constructed instance. -/
theorem C7_registry_idempotence :
    ∀ conf st reg ctr d n i,
      (d.instanceName = some n → lookupReg reg n = some i →
        SessionRestorationService.restoreInstance conf st reg ctr d
          = ⟨reg, ctr, st, []⟩)
      ∧ ((regKeys reg).Nodup →
          (regKeys (WAMonitoringService.setInstance reg ctr d).1).Nodup)
      ∧ ((regKeys reg).Nodup →
          (regKeys (SessionRestorationService.restoreInstance conf st reg ctr d).reg).Nodup) := by
  intro conf st reg ctr d n i
  refine ⟨?_, ?_, ?_⟩
  · intro hn hl
    by_cases he : n = ""
    · subst he
      simp [SessionRestorationService.restoreInstance, hn, jsTruthyStr]
    · simp only [SessionRestorationService.restoreInstance, hn, jsTruthyStr]
      rw [if_neg (by simp [he]), Option.getD_some]
      rw [lookupReg] at hl
      simp [lookupReg, hl]
  · intro hnd
    exact assocKeys_nodup_assocSet reg (jsKeyName d.instanceName) _ hnd
  · intro hnd
    simp only [SessionRestorationService.restoreInstance]
    by_cases ht : jsTruthyStr d.instanceName = false
    · simp [ht, hnd]
    · rw [if_neg ht]
      cases hl : lookupReg reg (d.instanceName.getD "") with
      | some _ => exact hnd
      | none =>
          exact assocKeys_nodup_assocSet reg (jsKeyName d.instanceName) _ hnd

/-- C7 witness: the amended theorem applied at the registered name alpha:
restoring it again through the restoration service leaves everything
unchanged. -/
theorem C7_registry_idempotence_witness :
    SessionRestorationService.restoreInstance egCacheConf [] egReg 1 egDto
      = ⟨egReg, 1, [], []⟩ :=
  (C7_registry_idempotence egCacheConf [] egReg 1 egDto "alpha" egRegInstance).1
    rfl (by decide)

/-! ## Claim C8 -/

theorem filterPersist_saveAll_length (insts : List ShutInst) :
    ((insts.map (fun i => ShutEvent.persistAttempt i.name (!i.persistFails))).filter
      isPersistEvent).length = insts.length := by
  induction insts with
  | nil => rfl
  | cons i rest ih => simp [List.filter_cons, isPersistEvent, ih]

theorem filterPersist_closeAll_nil (insts : List ShutInst) :
    ((insts.map (fun i => ShutEvent.closeAttempt i.name i.closeTimesOut)).filter
      isPersistEvent) = [] := by
  induction insts with
  | nil => rfl
  | cons i rest ih => simp [List.filter_cons, isPersistEvent, ih]

/-- C8 counterexample: a drain over one instance whose persist write fails
still runs every remaining step and exits with outcome 0: the per-instance
error is caught inside the `Promise.allSettled` callback (and
`persistInstanceState` additionally swallows its own errors), so nothing
reaches the error path of `initiateShutdown`. This refutes the claim that any
shutdown-step error causes the shutdown to exit with a nonzero outcome. -/
theorem C8_counterexample :
    GracefulShutdownService.initiateShutdown false [⟨"alpha", true, false⟩]
      = (.exited 0,
         [.stopHealthMonitoring, .persistAttempt "alpha" false,
          .closeAttempt "alpha" false, .cleanupDone]) := by
  decide

/-- C8 (amended): every per-instance shutdown-step error is caught so the
remaining shutdown steps still run — the drain always performs the
stop-monitor step, one persist attempt per registered instance, the close
loop and the cleanup step — but the drain exits with outcome 0 whether or
not per-instance errors occurred; only the hard deadline timer or an error
escaping a whole step (impossible for the per-instance failures modelled
here) produces a nonzero outcome. A second signal during the drain is a
no-op. -/
theorem C8_drain_exits_zero :
    ∀ insts : List ShutInst,
      (GracefulShutdownService.initiateShutdown false insts).1 = .exited 0
      ∧ ((GracefulShutdownService.initiateShutdown false insts).2.filter
            isPersistEvent).length = insts.length
      ∧ ShutEvent.stopHealthMonitoring
          ∈ (GracefulShutdownService.initiateShutdown false insts).2
      ∧ ShutEvent.cleanupDone
          ∈ (GracefulShutdownService.initiateShutdown false insts).2
      ∧ GracefulShutdownService.initiateShutdown true insts = (.ignoredSignal, []) := by
  intro insts
  refine ⟨rfl, ?_, ?_, ?_, rfl⟩
  · simp [GracefulShutdownService.initiateShutdown,
      GracefulShutdownService.performGracefulShutdown,
      GracefulShutdownService.saveAllInstanceStates,
      GracefulShutdownService.closeAllConnections,
      List.filter_cons, List.filter_append, isPersistEvent,
      filterPersist_saveAll_length, filterPersist_closeAll_nil]
  · simp [GracefulShutdownService.initiateShutdown,
      GracefulShutdownService.performGracefulShutdown]
  · simp [GracefulShutdownService.initiateShutdown,
      GracefulShutdownService.performGracefulShutdown]

/-! ## Claim C10 -/

theorem redisRestoreLoop_filter_attempts (conf : CacheConf) :
    ∀ ks st reg ctr,
      SessionRestorationService.redisRestoreLoop conf ks st reg ctr
        = SessionRestorationService.redisRestoreLoop conf
            (ks.filter (fun fk => SessionRestorationService.isAttemptDecision
                (SessionRestorationService.cacheKeyDecision fk)))
            st reg ctr := by
  intro ks
  induction ks with
  | nil => intro st reg ctr; rfl
  | cons fk rest ih =>
      intro st reg ctr
      cases hd : SessionRestorationService.cacheKeyDecision fk with
      | notCandidate =>
          simp only [SessionRestorationService.redisRestoreLoop, hd,
            List.filter_cons, SessionRestorationService.isAttemptDecision]
          simpa using ih st reg ctr
      | skipKey k =>
          simp only [SessionRestorationService.redisRestoreLoop, hd,
            List.filter_cons, SessionRestorationService.isAttemptDecision]
          simpa using ih st reg ctr
      | attemptKey k =>
          have hTrue : SessionRestorationService.isAttemptDecision
              (SessionRestorationService.KeyDecision.attemptKey k) = true := rfl
          simp only [SessionRestorationService.redisRestoreLoop, hd,
            List.filter_cons, hTrue, eq_self_iff_true, if_true]
          simp only [ih]

/-- C10: during the remote-cache restoration stage, every candidate key
whose extracted logical key contains the substring connecting_time,
restored, creds, or a hyphen is decided as a skip, performing no cache read
and no restore attempt; consequently the per-key loop computes the same
result as if all non-attempted keys were absent, so an instance whose cache
key contains a hyphen is never restored from the remote-cache tier
regardless of the stored record. -/
theorem C10_auxiliary_keys_skipped :
    (∀ fullKey k,
        SessionRestorationService.extractInstanceKey fullKey = some k →
        SessionRestorationService.skipAuxKey k = true →
        SessionRestorationService.cacheKeyDecision fullKey = .skipKey k)
    ∧ (∀ conf ks st reg ctr,
        SessionRestorationService.redisRestoreLoop conf ks st reg ctr
          = SessionRestorationService.redisRestoreLoop conf
              (ks.filter (fun fk => SessionRestorationService.isAttemptDecision
                  (SessionRestorationService.cacheKeyDecision fk)))
              st reg ctr) := by
  constructor
  · intro fullKey k h1 h2
    simp [SessionRestorationService.cacheKeyDecision, h1, h2]
  · intro conf ks st reg ctr
    exact redisRestoreLoop_filter_attempts conf ks st reg ctr

/-- C10 witness: a hyphen-named instance key under the instance namespace
is extracted and then skipped. -/
theorem C10_auxiliary_keys_skipped_witness :
    SessionRestorationService.cacheKeyDecision "evolution_cache:instance:my-instance"
      = .skipKey "my-instance" :=
  C10_auxiliary_keys_skipped.1 "evolution_cache:instance:my-instance"
    "my-instance" (by decide) (by decide)

/-! ## Claim C9 -/

/-- C9: every send operation against a registered instance whose declared
connection state is not open is rejected synchronously with a descriptive
error naming the instance and its current state, no send action reaches the
channel layer, and the registry is returned unchanged. -/
theorem C9_not_open_rejected :
    ∀ reg name inst d,
      lookupReg reg name = some inst →
      inst.connState ≠ some "open" →
      SendMessageController.sendText reg name d =
        (.error ("Instance \"" ++ name
          ++ "\" is not ready for message sending. Current state: "
          ++ displayState inst.connState
          ++ ". Please wait for the instance to connect."), [], reg) := by
  intro reg name inst d h1 h2
  rw [lookupReg] at h1
  simp only [SendMessageController.sendText,
    SendMessageController.validateInstanceReady, lookupReg, h1]
  rw [if_pos h2]

/-- C9 witness: the theorem applied to a registered instance whose declared
state is connecting; the rejection names the instance alpha and the state
connecting, and nothing is sent. -/
theorem C9_not_open_rejected_witness :
    SendMessageController.sendText egSendReg "alpha" "hello" =
      (.error ("Instance \"alpha\" is not ready for message sending. " ++
        "Current state: connecting. Please wait for the instance to connect."),
       [], egSendReg) := by
  exact C9_not_open_rejected egSendReg "alpha" egConnectingInst "hello"
    (by decide) (by decide)

/-! ## Claim C2 -/

/-- C2: for every Baileys instance whose declared state is close while its
transport object reports an open socket and an authenticated user, the
health sweep re-runs the liveness probe; under those transport signals the
probe passes, the declared state is corrected to open, the connection status
of the durable record is updated, and exactly one correction notification is
emitted; and whenever the probe fails instead, `correctFalseDisconnection`
proceeds with the normal failure-triggered reconnect. -/
theorem C2_false_disconnect_correction :
    ∀ conf now st name inst,
      inst.integration = some integrationBaileys →
      inst.connState = some "close" →
      isWebSocketHealthy inst = true →
      hasValidClientUser inst = true →
      (ConnectionHealthService.checkInstanceHealth conf now st name inst
         = ({ inst with connState := some "open" }, st,
            [.probe name true, .setState name "open",
             .dbUpdateStatus inst.instanceId "open", .correctionWebhook name]))
      ∧ (((ConnectionHealthService.checkInstanceHealth conf now st name inst).2.2.filter
            isCorrectionWebhook).length = 1)
      ∧ (∀ name2 inst2, performPingTest inst2 = false →
          ConnectionHealthService.correctFalseDisconnection name2 inst2
            = ((ConnectionHealthService.handleConnectionFailure name2 inst2).1,
               .probe name2 false
                 :: (ConnectionHealthService.handleConnectionFailure name2 inst2).2)) := by
  intro conf now st name inst h1 h2 h3 h4
  have hping : performPingTest inst = true := by
    have huser : inst.user.isSome = true := by
      cases hu : inst.user with
      | none => rw [hasValidClientUser, hu] at h4; simp at h4
      | some uid => rfl
    simp [performPingTest, h3, huser]
  have hmain : ConnectionHealthService.checkInstanceHealth conf now st name inst
      = ({ inst with connState := some "open" }, st,
         [.probe name true, .setState name "open",
          .dbUpdateStatus inst.instanceId "open", .correctionWebhook name]) := by
    simp [ConnectionHealthService.checkInstanceHealth,
      ConnectionHealthService.correctFalseDisconnection, h1, h2, h3, h4, hping]
  refine ⟨hmain, ?_, ?_⟩
  · rw [hmain]
    simp [isCorrectionWebhook, List.filter_cons]
  · intro name2 inst2 hp
    simp [ConnectionHealthService.correctFalseDisconnection, hp]

/-- C2 witness: the theorem applied to a concrete declared-close instance
with an open, authenticated transport: the sweep corrects to open, updates
the durable record once and emits one correction webhook. -/
theorem C2_false_disconnect_correction_witness :
    ConnectionHealthService.checkInstanceHealth egCacheConf 1000 [] "alpha" egHealthInst
      = ({ egHealthInst with connState := some "open" }, [],
         [.probe "alpha" true, .setState "alpha" "open",
          .dbUpdateStatus (some "alphaid") "open", .correctionWebhook "alpha"]) :=
  (C2_false_disconnect_correction egCacheConf 1000 [] "alpha" egHealthInst rfl rfl
    (by decide) (by decide)).1

/-! ## Claim C5 -/

theorem rcSet_ttl_zero_entry (conf : CacheConf) (st : RedisStore) (k : String)
    (v : SVal) :
    storeGet (RedisCache.set conf st k v (some 0)).store (buildKey conf k)
      = some (.str v none) := by
  rw [RedisCache.set, if_pos rfl]
  cases hg : storeGet st (buildKey conf k) with
  | none =>
      have hg2 : assocFind st (buildKey conf k) = none := hg
      simp [clientSet, hg2, storeGet, storeSet, assocFind_assocSet_self]
  | some rv =>
      cases rv with
      | str v0 e0 =>
          have hg2 : assocFind st (buildKey conf k) = some (RVal.str v0 e0) := hg
          simp [clientSet, hg2, storeGet, storeSet, assocFind_assocSet_self]
      | hash l =>
          have hg2 : assocFind st (buildKey conf k) = some (RVal.hash l) := hg
          simp [clientSet, hg2, RedisCache.handleWrongTypeError, clientType,
            clientDel, storeGet, assocFind_assocErase_self, storeSet,
            assocFind_assocSet_self]

theorem rcSet_ttl_pos_entry (conf : CacheConf) (st : RedisStore) (k : String)
    (v : SVal) (t : Nat) (ht : ¬ t = 0) :
    storeGet (RedisCache.set conf st k v (some t)).store (buildKey conf k)
      = some (.str v (some t)) := by
  rw [RedisCache.set, if_neg (by simp [ht])]
  have htt : ttlOrDefault conf (some t) = t := by simp [ttlOrDefault, ht]
  cases hg : storeGet st (buildKey conf k) with
  | none =>
      have hg2 : assocFind st (buildKey conf k) = none := hg
      simp [clientSetEx, hg2, htt, storeGet, storeSet, assocFind_assocSet_self]
  | some rv =>
      cases rv with
      | str v0 e0 =>
          have hg2 : assocFind st (buildKey conf k) = some (RVal.str v0 e0) := hg
          simp [clientSetEx, hg2, htt, storeGet, storeSet, assocFind_assocSet_self]
      | hash l =>
          have hg2 : assocFind st (buildKey conf k) = some (RVal.hash l) := hg
          simp [clientSetEx, hg2, htt, ht, RedisCache.handleWrongTypeError,
            clientType, clientDel, storeGet, assocFind_assocErase_self,
            storeSet, assocFind_assocSet_self]

/-- C5: a persist of the primary session record with the remote-cache tier
enabled for session storage writes the record with TTL 0, which issues a
plain SET, so the stored cell carries no expiry; while the transient
markers — the restoration marker written by `restoreInstance` and the
connect-start marker written by `setConnectingTime` — are written with the
finite 300-second TTL. -/
theorem C5_primary_record_no_expiry :
    ∀ cfg st name d conf st2 reg ctr d2 n conf2 st3 m now,
      cfg.redisEnabled = true → cfg.saveInstances = true →
      (storeGet (SessionRestorationService.persistInstanceState cfg st name d).store
          (buildKey cfg.cacheConf (SessionRestorationService.persistCacheKey name d))
        = some (.str (.obj d) none))
      ∧ (d2.instanceName = some n → n ≠ "" → lookupReg reg n = none →
          storeGet (SessionRestorationService.restoreInstance conf st2 reg ctr d2).store
              (buildKey conf ("restored:" ++ n))
            = some (.str (.s "true") (some 300)))
      ∧ (storeGet (ConnectionHealthService.setConnectingTime conf2 st3 m now).store
            (buildKey conf2 ("connecting_time:" ++ m))
          = some (.str (.s (toString now)) (some 300))) := by
  intro cfg st name d conf st2 reg ctr d2 n conf2 st3 m now h1 h2
  refine ⟨?_, ?_, ?_⟩
  · simp only [SessionRestorationService.persistInstanceState, h1, h2,
      Bool.and_self, if_true]
    exact rcSet_ttl_zero_entry cfg.cacheConf st _ (.obj d)
  · intro hn hne hl
    have hb : jsTruthyStr (some n) = true := by simp [jsTruthyStr, hne]
    rw [lookupReg] at hl
    simp only [SessionRestorationService.restoreInstance, hn, hb,
      Option.getD_some, lookupReg, hl, Bool.true_eq_false, if_false]
    exact rcSet_ttl_pos_entry conf st2 _ _ 300 (by decide)
  · exact rcSet_ttl_pos_entry conf2 st3 _ _ 300 (by decide)

/-- C5 witness: the theorem applied to a concrete persist with the cache
tier enabled: the primary record sits under its physical key with no
expiry. -/
theorem C5_primary_record_no_expiry_witness :
    storeGet (SessionRestorationService.persistInstanceState egCfg [] "alpha" egDto).store
        "evolution_cache:instance:alphaid" = some (.str (.obj egDto) none) :=
  (C5_primary_record_no_expiry egCfg [] "alpha" egDto egCacheConf [] [] 0
    egDto "alpha" egCacheConf [] "alpha" 0 rfl rfl).1

/-! ## Claim C4 -/

/-- C4: every Tiered Key Store operation hitting a shape-mismatch
(WRONGTYPE) error queries the current physical shape of the key (the TYPE call
in the trace), deletes the wrongly shaped key, retries the original write
exactly once (the traces show the failed attempt followed by one retry
after the delete, and a subsequent read returns the newly written value),
and read operations return null instead of raising the error. -/
theorem C4_wrongtype_repair :
    ∀ conf st key field v flds sv e,
      (storeGet st (buildKey conf key) = some (.hash flds) →
        RedisCache.get conf st key
          = ⟨none, clientDel st (buildKey conf key),
             [.getOp (buildKey conf key), .typeOp (buildKey conf key),
              .delOp (buildKey conf key)]⟩)
      ∧ (storeGet st (buildKey conf key) = some (.hash flds) →
          RedisCache.set conf st key v (some 0)
            = ⟨none,
               storeSet (clientDel st (buildKey conf key)) (buildKey conf key)
                 (.str v none),
               [.setPlainOp (buildKey conf key) v, .typeOp (buildKey conf key),
                .delOp (buildKey conf key), .setPlainOp (buildKey conf key) v]⟩
          ∧ (RedisCache.get conf (RedisCache.set conf st key v (some 0)).store key).value
              = some v)
      ∧ (storeGet st (buildKey conf key) = some (.str sv e) →
          RedisCache.hGet conf st key field
            = ⟨none, clientDel st (buildKey conf key),
               [.hGetOp (buildKey conf key) field, .typeOp (buildKey conf key),
                .delOp (buildKey conf key)]⟩)
      ∧ (storeGet st (buildKey conf key) = some (.str sv e) →
          RedisCache.hSet conf st key field v
            = ⟨none,
               storeSet (clientDel st (buildKey conf key)) (buildKey conf key)
                 (.hash [(field, v)]),
               [.hSetOp (buildKey conf key) field v, .typeOp (buildKey conf key),
                .delOp (buildKey conf key), .hSetOp (buildKey conf key) field v]⟩
          ∧ (RedisCache.hGet conf (RedisCache.hSet conf st key field v).store key field).value
              = some v) := by
  intro conf st key field v flds sv e
  refine ⟨?_, ?_, ?_, ?_⟩
  · intro h
    have h2 : assocFind st (buildKey conf key) = some (RVal.hash flds) := h
    simp [RedisCache.get, clientGet, h2, RedisCache.handleWrongTypeError,
      clientType, storeGet, clientDel]
  · intro h
    have h2 : assocFind st (buildKey conf key) = some (RVal.hash flds) := h
    have hset : RedisCache.set conf st key v (some 0)
        = ⟨none,
           storeSet (clientDel st (buildKey conf key)) (buildKey conf key)
             (.str v none),
           [.setPlainOp (buildKey conf key) v, .typeOp (buildKey conf key),
            .delOp (buildKey conf key), .setPlainOp (buildKey conf key) v]⟩ := by
      simp [RedisCache.set, clientSet, h2, RedisCache.handleWrongTypeError,
        clientType, storeGet, clientDel, assocFind_assocErase_self]
    refine ⟨hset, ?_⟩
    rw [hset]
    simp [RedisCache.get, clientGet, storeGet, storeSet, assocFind_assocSet_self]
  · intro h
    have h2 : assocFind st (buildKey conf key) = some (RVal.str sv e) := h
    simp [RedisCache.hGet, clientHGet, h2, RedisCache.handleWrongTypeError,
      clientType, storeGet, clientDel]
  · intro h
    have h2 : assocFind st (buildKey conf key) = some (RVal.str sv e) := h
    have hset : RedisCache.hSet conf st key field v
        = ⟨none,
           storeSet (clientDel st (buildKey conf key)) (buildKey conf key)
             (.hash [(field, v)]),
           [.hSetOp (buildKey conf key) field v, .typeOp (buildKey conf key),
            .delOp (buildKey conf key), .hSetOp (buildKey conf key) field v]⟩ := by
      simp [RedisCache.hSet, clientHSet, h2, RedisCache.handleWrongTypeError,
        clientType, storeGet, clientDel, assocFind_assocErase_self]
    refine ⟨hset, ?_⟩
    rw [hset]
    simp [RedisCache.hGet, clientHGet, storeGet, storeSet,
      assocFind_assocSet_self, assocFind]

/-- C4 witness: the theorem applied to a concrete keyspace whose instance
key k is corrupted to hash shape: the scalar write repairs the key and the
subsequent read returns the newly written value. -/
theorem C4_wrongtype_repair_witness :
    (RedisCache.get egCacheConf
        (RedisCache.set egCacheConf egWrongStore "k" (.s "fresh") (some 0)).store
        "k").value = some (.s "fresh") :=
  ((C4_wrongtype_repair egCacheConf egWrongStore "k" "f" (.s "fresh")
      [("f0", .s "x")] (.s "x") none).2.1 (by decide)).2

/-! ## Claim C1 -/

/-- C1 counterexample: a startup run over a keyspace holding one valid
primary record, with every tier enabled, restores one instance in the
remote-cache stage and still attempts the durable-tier stage: the source
gates only the file-provider stage on `restoredCount === 0`, while the
database stage runs whenever `SAVE_DATA.INSTANCE` is enabled. This refutes
the claim that the durable-tier stage is attempted only if the remote-cache
stage restored zero instances or is disabled. -/
theorem C1_counterexample :
    (SessionRestorationService.restoreAllSessions egCfg [] egStore [] 0).cacheCount = 1
    ∧ (SessionRestorationService.restoreAllSessions egCfg [] egStore [] 0).dbAttempted
        = true := by
  decide

theorem redisRestoreLoop_zero_reg (conf : CacheConf) :
    ∀ ks st reg ctr,
      (SessionRestorationService.redisRestoreLoop conf ks st reg ctr).restored = 0 →
      (SessionRestorationService.redisRestoreLoop conf ks st reg ctr).reg = reg
      ∧ (SessionRestorationService.redisRestoreLoop conf ks st reg ctr).ctr = ctr := by
  intro ks
  induction ks with
  | nil => intro st reg ctr _; exact ⟨rfl, rfl⟩
  | cons fk rest ih =>
      intro st reg ctr h
      cases hd : SessionRestorationService.cacheKeyDecision fk with
      | notCandidate =>
          simp only [SessionRestorationService.redisRestoreLoop, hd] at h ⊢
          exact ih st reg ctr h
      | skipKey k =>
          simp only [SessionRestorationService.redisRestoreLoop, hd] at h ⊢
          exact ih st reg ctr h
      | attemptKey k =>
          simp only [SessionRestorationService.redisRestoreLoop, hd] at h ⊢
          cases hv : (RedisCache.get conf st k).value with
          | none =>
              simp only [hv] at h ⊢
              exact ih _ reg ctr h
          | some v =>
              simp only [hv] at h ⊢
              cases hvd : SessionRestorationService.validInstanceData v with
              | none =>
                  simp only [hvd] at h ⊢
                  exact ih _ reg ctr h
              | some d =>
                  simp only [hvd] at h
                  simp at h

theorem restoreFromRedisCache_zero (conf : CacheConf) (st : RedisStore)
    (reg : Registry) (ctr : Nat)
    (h : (SessionRestorationService.restoreFromRedisCache conf st reg ctr).restored = 0) :
    (SessionRestorationService.restoreFromRedisCache conf st reg ctr).reg = reg
    ∧ (SessionRestorationService.restoreFromRedisCache conf st reg ctr).ctr = ctr := by
  simp only [SessionRestorationService.restoreFromRedisCache] at h ⊢
  exact redisRestoreLoop_zero_reg conf _ _ reg ctr h

theorem dbRestoreLoop_count (conf : CacheConf) :
    ∀ rs st reg ctr,
      (SessionRestorationService.dbRestoreLoop conf rs st reg ctr).restored
        = rs.length := by
  intro rs
  induction rs with
  | nil => intro st reg ctr; rfl
  | cons r rest ih =>
      intro st reg ctr
      simp only [SessionRestorationService.dbRestoreLoop, List.length_cons]
      rw [ih]

theorem dbRestoreLoop_keys (conf : CacheConf) :
    ∀ rs st reg ctr,
      (∀ r ∈ rs, r.name ≠ "" ∧ lookupReg reg r.name = none) →
      ((rs.map DbInstance.name).Nodup) →
      regKeys (SessionRestorationService.dbRestoreLoop conf rs st reg ctr).reg
        = regKeys reg ++ rs.map DbInstance.name := by
  intro rs
  induction rs with
  | nil =>
      intro st reg ctr _ _
      simp [SessionRestorationService.dbRestoreLoop]
  | cons r rest ih =>
      intro st reg ctr h1 h2
      obtain ⟨hne, hl⟩ := h1 r (List.mem_cons_self r rest)
      have hb : jsTruthyStr (some r.name) = true := by simp [jsTruthyStr, hne]
      have hl2 : assocFind reg r.name = none := hl
      have hstep : SessionRestorationService.restoreInstance conf st reg ctr
          (dtoOfDbInstance r)
          = ⟨assocSet reg r.name (mkInstance ctr (dtoOfDbInstance r)), ctr + 1,
             (RedisCache.set conf st ("restored:" ++ r.name) (.s "true") (some 300)).store,
             (RedisCache.set conf st ("restored:" ++ r.name) (.s "true") (some 300)).trace⟩ := by
        simp [SessionRestorationService.restoreInstance, dtoOfDbInstance, hb,
          lookupReg, hl2, WAMonitoringService.setInstance, jsKeyName]
      simp only [SessionRestorationService.dbRestoreLoop, hstep]
      have h1rest : ∀ r2 ∈ rest, r2.name ≠ ""
          ∧ lookupReg (assocSet reg r.name (mkInstance ctr (dtoOfDbInstance r)))
              r2.name = none := by
        intro r2 hr2
        obtain ⟨hne2, hl3⟩ := h1 r2 (List.mem_cons_of_mem r hr2)
        refine ⟨hne2, ?_⟩
        have hnn : r2.name ≠ r.name := by
          intro e
          rw [List.map_cons, List.nodup_cons] at h2
          exact h2.1 (e ▸ List.mem_map_of_mem DbInstance.name hr2)
        show assocFind (assocSet reg r.name (mkInstance ctr (dtoOfDbInstance r)))
            r2.name = none
        rw [assocFind_assocSet_ne reg r.name r2.name _ hnn]
        exact hl3
      have h2rest : (rest.map DbInstance.name).Nodup := by
        rw [List.map_cons, List.nodup_cons] at h2
        exact h2.2
      rw [ih _ _ _ h1rest h2rest]
      have hkeys1 : regKeys (assocSet reg r.name (mkInstance ctr (dtoOfDbInstance r)))
          = regKeys reg ++ [r.name] := by
        show assocKeys (assocSet reg r.name (mkInstance ctr (dtoOfDbInstance r)))
          = assocKeys reg ++ [r.name]
        rw [assocSet_fresh reg r.name _ hl2, assocKeys_append]
        simp [assocKeys]
      rw [hkeys1]
      simp

theorem dbRestoreLoop_spec (conf : CacheConf) (rs : List DbInstance)
    (st : RedisStore) (reg : Registry) (ctr : Nat)
    (h1 : ∀ r ∈ rs, r.name ≠ "" ∧ lookupReg reg r.name = none)
    (h2 : (rs.map DbInstance.name).Nodup)
    (h3 : (regKeys reg).Nodup) :
    (SessionRestorationService.dbRestoreLoop conf rs st reg ctr).restored = rs.length
    ∧ regKeys (SessionRestorationService.dbRestoreLoop conf rs st reg ctr).reg
        = regKeys reg ++ rs.map DbInstance.name
    ∧ (regKeys (SessionRestorationService.dbRestoreLoop conf rs st reg ctr).reg).Nodup := by
  refine ⟨dbRestoreLoop_count conf rs st reg ctr,
    dbRestoreLoop_keys conf rs st reg ctr h1 h2, ?_⟩
  rw [dbRestoreLoop_keys conf rs st reg ctr h1 h2]
  refine List.Nodup.append h3 h2 ?_
  intro a ha hb
  rw [List.mem_map] at hb
  obtain ⟨r, hr, he⟩ := hb
  have hnn : r.name ∉ assocKeys reg :=
    (assocFind_eq_none_iff reg r.name).mp (h1 r hr).2
  rw [he] at hnn
  exact hnn ha

/-- C1 (amended): in `restoreAllSessions` only the file-provider stage is
gated on the prior stages having restored zero instances; the durable-tier
stage is attempted whenever it is enabled, regardless of the remote-cache
stage count. The second half of the claim holds: when the cache stage
yields zero usable records and the durable tier holds N eligible records
(distinct nonempty names, none previously registered), the run registers
exactly those N instances, with no duplicates. -/
theorem C1_staged_fallback :
    ∀ cfg table st reg ctr,
      ((SessionRestorationService.restoreAllSessions cfg table st reg ctr).dbAttempted
          = cfg.dbSaveInstance)
      ∧ ((SessionRestorationService.restoreAllSessions cfg table st reg ctr).providerAttempted
          = decide ((SessionRestorationService.restoreAllSessions cfg table st reg ctr).cacheCount
              + (SessionRestorationService.restoreAllSessions cfg table st reg ctr).dbCount = 0))
      ∧ (cfg.dbSaveInstance = true →
          (SessionRestorationService.restoreAllSessions cfg table st reg ctr).cacheCount = 0 →
          (∀ r ∈ eligibleDbInstances cfg.clientName table,
              r.name ≠ "" ∧ lookupReg reg r.name = none) →
          ((eligibleDbInstances cfg.clientName table).map DbInstance.name).Nodup →
          (regKeys reg).Nodup →
          ((SessionRestorationService.restoreAllSessions cfg table st reg ctr).dbCount
              = (eligibleDbInstances cfg.clientName table).length
            ∧ regKeys (SessionRestorationService.restoreAllSessions cfg table st reg ctr).reg
              = regKeys reg
                  ++ (eligibleDbInstances cfg.clientName table).map DbInstance.name
            ∧ (regKeys (SessionRestorationService.restoreAllSessions cfg table st reg ctr).reg).Nodup)) := by
  intro cfg table st reg ctr
  refine ⟨rfl, rfl, ?_⟩
  intro hdb hc0 helig hnodup hregnd
  by_cases hco : (cfg.redisEnabled && cfg.saveInstances) = true
  · have hc0' : (SessionRestorationService.restoreFromRedisCache cfg.cacheConf st reg ctr).restored
        = 0 := by
      simpa [SessionRestorationService.restoreAllSessions, hco] using hc0
    obtain ⟨hreg1, hctr1⟩ := restoreFromRedisCache_zero cfg.cacheConf st reg ctr hc0'
    have hdbspec := dbRestoreLoop_spec cfg.cacheConf
      (eligibleDbInstances cfg.clientName table)
      (SessionRestorationService.restoreFromRedisCache cfg.cacheConf st reg ctr).store reg
      (SessionRestorationService.restoreFromRedisCache cfg.cacheConf st reg ctr).ctr
      helig hnodup hregnd
    refine ⟨?_, ?_, ?_⟩ <;>
      simp only [SessionRestorationService.restoreAllSessions, hco, hdb, if_true,
        SessionRestorationService.restoreFromDatabase]
    · rw [hreg1]
      exact hdbspec.1
    · rw [hreg1]
      exact hdbspec.2.1
    · rw [hreg1]
      exact hdbspec.2.2
  · have hdbspec := dbRestoreLoop_spec cfg.cacheConf
      (eligibleDbInstances cfg.clientName table) st reg ctr helig hnodup hregnd
    refine ⟨?_, ?_, ?_⟩ <;>
      simp only [SessionRestorationService.restoreAllSessions, hco, hdb, if_true,
        if_false, SessionRestorationService.restoreFromDatabase]
    · exact hdbspec.1
    · exact hdbspec.2.1
    · exact hdbspec.2.2

/-- C1 witness: the amended theorem applied to a run with the cache tier
disabled and a durable table holding two eligible rows and one closed row:
the run registers exactly the two eligible instances. -/
theorem C1_staged_fallback_witness :
    (SessionRestorationService.restoreAllSessions egCfgDbOnly egDbTable [] [] 0).dbCount = 2
    ∧ regKeys (SessionRestorationService.restoreAllSessions egCfgDbOnly egDbTable [] [] 0).reg
        = ["one", "two"] := by
  have h := (C1_staged_fallback egCfgDbOnly egDbTable [] [] 0).2.2 rfl (by decide)
    (by decide) (by decide) (by decide)
  exact ⟨h.1.trans (by decide), h.2.1.trans (by decide)⟩
